import Mathlib

/-!
Verification of the rdev input-event façade (src/src/lib.rs) and its keyboard
state translation engine against the specification.

The analyzed source contains the crate façade (`listen`, `simulate`,
`display_size`, `grab`, the re-exports) and the integration test
`tests::test_keyboard_state`; the platform modules (`linux`, `macos`,
`windows`) that implement `Keyboard`, `grab` and `display_size` are not part
of the analyzed tree.  Those operations are therefore modelled from the
specification (each such definition carries a doc comment starting
`Modelled from the spec:`), and their behavior is cross-checked against the
in-tree test `tests::test_keyboard_state` wherever that test pins it.
-/

namespace Rdev

/-- Modelled from the spec: the physical key vocabulary (`Key` in the missing
`rdev` module).  An OS-independent catalog of physical key identities on the
reference QWERTY board, plus the `Unknown(code)` escape variant carrying a raw
platform code.  Only the keys the analyzed claims exercise are enumerated;
`Unknown` keeps the vocabulary open as the spec requires. -/
inductive Key where
  | ShiftLeft
  | ShiftRight
  | CapsLock
  | KeyA
  | KeyE
  | KeyS
  | Quote
  | F1
  | Unknown (code : Nat)
deriving DecidableEq, Repr

/-- Modelled from the spec: mouse button vocabulary (`Button` in the missing
`rdev` module): `Left`, `Right`, `Middle`, `Unknown(code)`. -/
inductive Button where
  | Left
  | Right
  | Middle
  | Unknown (code : Nat)
deriving DecidableEq, Repr

/-- Modelled from the spec: `EventType`, the tagged union over physical
events (`KeyPress`, `KeyRelease`, `ButtonPress`, `ButtonRelease`,
`MouseMove {x, y}` in pixels, `Wheel {delta_x, delta_y}`).  It never carries
resolved text. -/
inductive EventType where
  | KeyPress (key : Key)
  | KeyRelease (key : Key)
  | ButtonPress (button : Button)
  | ButtonRelease (button : Button)
  | MouseMove (x y : Float)
  | Wheel (delta_x delta_y : Int)

/-- Whether an `EventType` is a key press or a key release (the only two
variants the keyboard state engine acts on). -/
def EventType.isKeyEvent : EventType → Bool
  | .KeyPress _ => true
  | .KeyRelease _ => true
  | _ => false

/-- Modelled from the spec: `Event` — arrival timestamp, the optional resolved
text `name` (exactly what the OS layout produced, unvalidated), and the
physical payload.  The timestamp is modelled as a natural number of
nanoseconds since an epoch. -/
structure Event where
  time : Nat
  name : Option String
  event_type : EventType

/-- Modelled from the spec: `ModifierState` (engine-private state of the
missing platform `Keyboard`).  Tracks whether each tracked modifier physical
key is currently down (shift-left, shift-right) or latched (caps lock
toggles rather than holds). -/
structure ModifierState where
  shiftLeft : Bool
  shiftRight : Bool
  capsLock : Bool
deriving DecidableEq, Repr

/-- The initial modifier state: all modifiers up, caps lock off. -/
def ModifierState.init : ModifierState :=
  { shiftLeft := false, shiftRight := false, capsLock := false }

/-- Whether a shift key is currently held in this modifier state. -/
def ModifierState.shifted (m : ModifierState) : Bool :=
  m.shiftLeft || m.shiftRight

/-- Modelled from the spec: `LayoutTable` (loaded by the missing platform
`Keyboard::new` from the active OS layout) — a mapping from
(physical key, modifier combination) to produced text, a classification of
dead keys by the combining mark they produce, and the dead-key sub-mapping
from (pending mark, base output) to composed output. -/
structure LayoutTable where
  map : Key → ModifierState → Option String
  deadMark : Key → Option String
  compose : String → String → Option String

/-- Whether a key is a modifier-only key tracked by `ModifierState`. -/
def Key.isModifier : Key → Bool
  | .ShiftLeft => true
  | .ShiftRight => true
  | .CapsLock => true
  | _ => false

/-- Modelled from the spec: step 1 of `add` on a key press — press of shift
sets the corresponding "down" flag, press of caps lock flips the latch,
any other key leaves `ModifierState` unchanged. -/
def pressModifier (m : ModifierState) : Key → ModifierState
  | .ShiftLeft => { m with shiftLeft := true }
  | .ShiftRight => { m with shiftRight := true }
  | .CapsLock => { m with capsLock := !m.capsLock }
  | _ => m

/-- Modelled from the spec: the key-release update — clears the "down" flag
of a released shift key, leaves latched toggles (caps lock) and everything
else untouched. -/
def releaseModifier (m : ModifierState) : Key → ModifierState
  | .ShiftLeft => { m with shiftLeft := false }
  | .ShiftRight => { m with shiftRight := false }
  | _ => m

/-- Modelled from the spec: the keyboard state engine (`Keyboard` of the
missing platform modules): the layout table loaded once at construction,
the engine-private `ModifierState`, and the `DeadKeyState`
(`none` or a pending combining mark — at most one, by this type). -/
structure Keyboard where
  layout : LayoutTable
  modifiers : ModifierState
  deadKey : Option String

/-- Modelled from the spec: `Keyboard::new` loads the current layout and
starts from the initial state (all modifiers up, no pending dead key).
The OS layout query is the external collaborator, so the loaded table is a
parameter here. -/
def Keyboard.new (layout : LayoutTable) : Keyboard :=
  { layout := layout, modifiers := ModifierState.init, deadKey := none }

/-- Modelled from the spec: `add`, the single mutating entry point of the
keyboard state engine (spec section 4.2), returning the emitted text and the
successor state.
Non-key events return `none` and leave the state untouched.  A key release
returns `none` and only clears the "down" flag of a released modifier.  A key
press first updates `ModifierState`; a modifier-only key then yields `none`;
otherwise the (key, current modifier combination) entry of the layout is
looked up, a pending dead-key mark is composed with it when the sub-mapping
allows (clearing the pending mark), a key classified as a dead key replaces
the pending mark and yields `none`, and otherwise the direct mapping (or
`none` when the layout has no binding) is returned with the pending mark
dropped. -/
def Keyboard.add (kb : Keyboard) (e : EventType) : Option String × Keyboard :=
  match e with
  | .KeyPress k =>
    let mods := pressModifier kb.modifiers k
    if k.isModifier then
      (none, { kb with modifiers := mods })
    else
      let direct := kb.layout.map k mods
      let composed :=
        match kb.deadKey, direct with
        | some mark, some base => kb.layout.compose mark base
        | _, _ => none
      match composed with
      | some txt => (some txt, { kb with modifiers := mods, deadKey := none })
      | none =>
        match kb.layout.deadMark k with
        | some mark => (none, { kb with modifiers := mods, deadKey := some mark })
        | none => (direct, { kb with modifiers := mods, deadKey := none })
  | .KeyRelease k =>
    (none, { kb with modifiers := releaseModifier kb.modifiers k })
  | _ => (none, kb)

/-- Modelled from the spec: `reset` clears `ModifierState` and `DeadKeyState`
to their initial values and does not reload the layout. -/
def Keyboard.reset (kb : Keyboard) : Keyboard :=
  { kb with modifiers := ModifierState.init, deadKey := none }

/-- One call made to a keyboard state engine instance: either `add` of an
event or `reset`. -/
inductive Cmd where
  | ev (e : EventType)
  | reset

/-- The output sequence an engine produces over a history of calls: each
`add` contributes its `Option` text, `reset` contributes nothing. -/
def Keyboard.run (kb : Keyboard) : List Cmd → List (Option String)
  | [] => []
  | .ev e :: rest =>
    let step := kb.add e
    step.1 :: step.2.run rest
  | .reset :: rest => kb.reset.run rest

/-- The reference QWERTY layout table for the letter keys the claims
exercise: a held shift selects the capital, caps lock latches capitals
(shift while caps lock is latched un-shifts), every other key — including
every `Unknown` code — has no binding, and QWERTY has no dead keys. -/
def qwertyMap (k : Key) (m : ModifierState) : Option String :=
  match k with
  | .KeyA => some (if m.shifted != m.capsLock then "A" else "a")
  | .KeyE => some (if m.shifted != m.capsLock then "E" else "e")
  | .KeyS => some (if m.shifted != m.capsLock then "S" else "s")
  | _ => none

/-- The reference QWERTY layout: direct mappings only, no dead keys, empty
dead-key sub-mapping. -/
def qwerty : LayoutTable :=
  { map := qwertyMap
    deadMark := fun _ => none
    compose := fun _ _ => none }

/-- A US-International-style layout for the dead-key scenarios: `Quote` is a
dead key producing the acute combining mark, which composes with the base
outputs "a" and "e". -/
def usIntl : LayoutTable :=
  { map := qwertyMap
    deadMark := fun k => match k with | .Quote => some "´" | _ => none
    compose := fun mark base =>
      if mark = "´" then
        if base = "a" then some "á"
        else if base = "e" then some "é"
        else none
      else none }

/-- A key that is not a modifier leaves the modifier state unchanged when
pressed. -/
theorem pressModifier_of_not_modifier (m : ModifierState) (k : Key)
    (h : k.isModifier = false) : pressModifier m k = m := by
  cases k <;> simp [Key.isModifier] at h ⊢ <;> rfl

/-- C1: under the reference QWERTY layout with no modifiers active,
`add (KeyPress KeyS)` returns `some "s"` and the immediately following
`add (KeyRelease KeyS)` returns `none` (pinned by
`tests::test_keyboard_state`). -/
theorem qwerty_press_release_s :
    ((Keyboard.new qwerty).add (.KeyPress .KeyS)).1 = some "s" ∧
    (((Keyboard.new qwerty).add (.KeyPress .KeyS)).2.add
      (.KeyRelease .KeyS)).1 = none :=
  ⟨rfl, rfl⟩

/-- C2: shift is release-driven, not single-shot — pressing ShiftLeft then
KeyS yields `some "S"` on the second call, and after releasing ShiftLeft a
further KeyS press yields `some "s"` again (pinned by
`tests::test_keyboard_state`). -/
theorem shift_is_release_driven :
    (Keyboard.new qwerty).run
      [.ev (.KeyPress .ShiftLeft), .ev (.KeyPress .KeyS),
       .ev (.KeyRelease .ShiftLeft), .ev (.KeyPress .KeyS)]
    = [none, some "S", none, some "s"] :=
  rfl

/-- C3: `reset` restores the modifier and dead-key state to their initial
values without reloading the layout, so after pressing ShiftLeft and calling
`reset`, a letter press yields the unshifted form even though no
`KeyRelease(Shift)` was ever observed, and the layout table afterwards is the
one loaded at construction (pinned by `tests::test_keyboard_state`). -/
theorem reset_restores_initial_state :
    (∀ kb : Keyboard, kb.reset.layout = kb.layout ∧
      kb.reset.modifiers = ModifierState.init ∧ kb.reset.deadKey = none) ∧
    (Keyboard.new qwerty).run
      [.ev (.KeyPress .ShiftLeft), .reset, .ev (.KeyPress .KeyS)]
      = [none, some "s"] :=
  ⟨fun _ => ⟨rfl, rfl, rfl⟩, rfl⟩

/-- C4: `add` is total and degrades to `none` on unmapped input — for every
engine state and every key with no layout binding under the current modifier
combination (the combination after the press-side modifier update), including
every `Unknown(code)` key, `add (KeyPress k)` returns exactly `none`; no
error value exists in its return type. -/
theorem add_unmapped_returns_none (kb : Keyboard) (k : Key)
    (h : kb.layout.map k (pressModifier kb.modifiers k) = none) :
    (kb.add (.KeyPress k)).1 = none := by
  rcases hm : k.isModifier with _ | _ <;>
    rcases hd : kb.deadKey with _ | mark <;>
      simp [Keyboard.add, hm, hd, h] <;>
        rcases kb.layout.deadMark k with _ | mk <;> simp

/-- C4 witness: the initial QWERTY engine maps `Unknown 42` to nothing, and
pressing it returns `none`. -/
theorem add_unmapped_returns_none_witness :
    qwerty.map (.Unknown 42)
      (pressModifier (Keyboard.new qwerty).modifiers (.Unknown 42)) = none ∧
    ((Keyboard.new qwerty).add (.KeyPress (.Unknown 42))).1 = none :=
  ⟨rfl, add_unmapped_returns_none (Keyboard.new qwerty) (.Unknown 42) rfl⟩

/-- C5: for every `EventType` that is not a key press or release
(`ButtonPress`, `ButtonRelease`, `MouseMove`, `Wheel`), `add` returns `none`
and the whole engine state — in particular `ModifierState` and
`DeadKeyState` — is exactly the same after the call as before it. -/
theorem add_non_key_event_ignored (kb : Keyboard) (e : EventType)
    (h : e.isKeyEvent = false) :
    kb.add e = (none, kb) := by
  cases e <;> simp [EventType.isKeyEvent] at h ⊢ <;> rfl

/-- C5 witness: a wheel event on the initial QWERTY engine returns `none`
and leaves the state untouched. -/
theorem add_non_key_event_ignored_witness :
    (EventType.Wheel 0 1).isKeyEvent = false ∧
    (Keyboard.new qwerty).add (.Wheel 0 1) = (none, Keyboard.new qwerty) :=
  ⟨rfl, add_non_key_event_ignored (Keyboard.new qwerty) (.Wheel 0 1) rfl⟩

/-- Pressing a non-modifier key classified as a dead key while no mark is
pending emits nothing and records the key's mark as pending. -/
theorem add_press_dead_key (L : LayoutTable) (mods : ModifierState)
    (d : Key) (mark : String) (hd : d.isModifier = false)
    (hdead : L.deadMark d = some mark) :
    Keyboard.add ⟨L, mods, none⟩ (.KeyPress d)
      = (none, ⟨L, pressModifier mods d, some mark⟩) := by
  simp [Keyboard.add, hd, hdead]

/-- Pressing a non-modifier key whose current output composes with the
pending mark emits the composed text and clears the pending mark. -/
theorem add_press_composes (L : LayoutTable) (mods : ModifierState)
    (k : Key) (mark base txt : String) (hk : k.isModifier = false)
    (hbase : L.map k (pressModifier mods k) = some base)
    (hcomp : L.compose mark base = some txt) :
    Keyboard.add ⟨L, mods, some mark⟩ (.KeyPress k)
      = (some txt, ⟨L, pressModifier mods k, none⟩) := by
  simp [Keyboard.add, hk, hbase, hcomp]

/-- C6: dead-key composition — for an engine with no modifiers held and no
pending mark, over a layout that classifies `d` as a dead key with mark
`mark` and whose dead-key sub-mapping sends (`mark`, base output of `k`) to
`txt`, `add (KeyPress d)` returns `none`, and the immediately following
`add (KeyPress k)` returns the single composed glyph `some txt` and clears
the pending dead-key state. -/
theorem deadkey_composition (kb : Keyboard) (d k : Key)
    (mark base txt : String)
    (hmods : kb.modifiers = ModifierState.init)
    (hpending : kb.deadKey = none)
    (hd : d.isModifier = false) (hk : k.isModifier = false)
    (hdead : kb.layout.deadMark d = some mark)
    (hbase : kb.layout.map k ModifierState.init = some base)
    (hcomp : kb.layout.compose mark base = some txt) :
    (kb.add (.KeyPress d)).1 = none ∧
    ((kb.add (.KeyPress d)).2.add (.KeyPress k)).1 = some txt ∧
    ((kb.add (.KeyPress d)).2.add (.KeyPress k)).2.deadKey = none := by
  obtain ⟨L, mods, dk⟩ := kb
  simp only at hmods hpending hdead hbase hcomp
  subst hmods; subst hpending
  rw [add_press_dead_key L ModifierState.init d mark hd hdead]
  rw [pressModifier_of_not_modifier ModifierState.init d hd]
  rw [add_press_composes L ModifierState.init k mark base txt hk
    (by rw [pressModifier_of_not_modifier ModifierState.init k hk]; exact hbase)
    hcomp]
  exact ⟨rfl, rfl, rfl⟩

/-- C6 witness: on the US-International layout, pressing the Quote dead key
then KeyE yields `none` then the composed `some "é"` with the pending state
cleared. -/
theorem deadkey_composition_witness :
    ((Keyboard.new usIntl).modifiers = ModifierState.init ∧
      (Keyboard.new usIntl).deadKey = none ∧
      Key.Quote.isModifier = false ∧ Key.KeyE.isModifier = false ∧
      usIntl.deadMark .Quote = some "´" ∧
      usIntl.map .KeyE ModifierState.init = some "e" ∧
      usIntl.compose "´" "e" = some "é") ∧
    ((Keyboard.new usIntl).add (.KeyPress .Quote)).1 = none ∧
    (((Keyboard.new usIntl).add (.KeyPress .Quote)).2.add
      (.KeyPress .KeyE)).1 = some "é" ∧
    (((Keyboard.new usIntl).add (.KeyPress .Quote)).2.add
      (.KeyPress .KeyE)).2.deadKey = none :=
  ⟨⟨rfl, rfl, rfl, rfl, rfl, rfl, by decide⟩,
    deadkey_composition (Keyboard.new usIntl) .Quote .KeyE "´" "e" "é"
      rfl rfl rfl rfl rfl rfl (by decide)⟩

/-- C7: the engine is deterministic and history-determined — two
independently constructed engine instances over the same initial layout,
fed the identical sequence of `add` and `reset` calls, produce identical
output sequences; in this model `run` is a pure function of
(initial layout, call history). -/
theorem engine_history_deterministic (L1 L2 : LayoutTable) (cmds : List Cmd)
    (h : L1 = L2) :
    (Keyboard.new L1).run cmds = (Keyboard.new L2).run cmds := by
  subst h; rfl

/-- C7 witness: two engines constructed over the QWERTY layout agree on a
concrete history. -/
theorem engine_history_deterministic_witness :
    (Keyboard.new qwerty).run
      [.ev (.KeyPress .ShiftLeft), .ev (.KeyPress .KeyS), .reset,
       .ev (.KeyPress .KeyS)]
    = (Keyboard.new qwerty).run
      [.ev (.KeyPress .ShiftLeft), .ev (.KeyPress .KeyS), .reset,
       .ev (.KeyPress .KeyS)] :=
  engine_history_deterministic qwerty qwerty
    [.ev (.KeyPress .ShiftLeft), .ev (.KeyPress .KeyS), .reset,
     .ev (.KeyPress .KeyS)] rfl

/-- C8: the dead-key state holds at most one pending mark (its type is an
`Option`), and when a second dead-key press arrives while a mark is pending
the first pending mark is immediately discarded: after the press the pending
state is either cleared (the composable branch) or holds exactly the second
key's mark — never the first mark as such. -/
theorem second_deadkey_discards_first (kb : Keyboard) (m1 : String)
    (d2 : Key) (mark2 : String)
    (hpending : kb.deadKey = some m1)
    (hd : d2.isModifier = false)
    (hdead : kb.layout.deadMark d2 = some mark2) :
    (kb.add (.KeyPress d2)).2.deadKey = none ∨
    (kb.add (.KeyPress d2)).2.deadKey = some mark2 := by
  obtain ⟨L, mods, dk⟩ := kb
  simp only at hpending hdead
  subst hpending
  rcases hdir : L.map d2 (pressModifier mods d2) with _ | base
  · right
    simp [Keyboard.add, hd, hdir, hdead]
  · rcases hcomp : L.compose m1 base with _ | txt
    · right
      simp [Keyboard.add, hd, hdir, hcomp, hdead]
    · left
      simp [Keyboard.add, hd, hdir, hcomp]

/-- C8 witness: pressing the Quote dead key twice on the US-International
layout — after the second press the pending state is cleared or holds the
second press's mark. -/
theorem second_deadkey_discards_first_witness :
    (((Keyboard.new usIntl).add (.KeyPress .Quote)).2.deadKey = some "´" ∧
      Key.Quote.isModifier = false ∧ usIntl.deadMark .Quote = some "´") ∧
    ((((Keyboard.new usIntl).add (.KeyPress .Quote)).2.add
        (.KeyPress .Quote)).2.deadKey = none ∨
      (((Keyboard.new usIntl).add (.KeyPress .Quote)).2.add
        (.KeyPress .Quote)).2.deadKey = some "´") :=
  ⟨⟨rfl, rfl, rfl⟩,
    second_deadkey_discards_first
      ((Keyboard.new usIntl).add (.KeyPress .Quote)).2 "´" .Quote "´"
      rfl rfl rfl⟩

/-- Modelled from the spec: `GrabError` — veto-capable observation
unavailable or failed to install.  On a backend without OS-level
interception support (Linux) the error is the unconditional
"not implemented" condition. -/
inductive GrabError where
  | linuxNotSupported
deriving DecidableEq, Repr

/-- Modelled from the spec: the Linux backend's `grab` (the missing `linux`
module).  Veto-capable observation is not implemented on Linux — "you will
always receive an error" — so it returns `Err(GrabError)` unconditionally,
ignoring the callback and the blocking flag, and never delivers any event
to the callback. -/
def linuxGrab (_callback : Event → Option Event) (_blocking : Bool) :
    Except GrabError Unit :=
  Except.error GrabError.linuxNotSupported

/-- The façade `grab` (src/src/lib.rs): on a Linux build it delegates to the
Linux backend's grab, forwarding the callback and the blocking flag. -/
def grab (callback : Event → Option Event) (blocking : Bool) :
    Except GrabError Unit :=
  linuxGrab callback blocking

/-- C9: on the backend without OS-level interception support (Linux), every
call to `grab` returns `Err(GrabError)` unconditionally and
deterministically — for every callback and every value of the blocking flag
the result is the same error, so the call never degrades to observe-only
delivery (the callback is never consulted). -/
theorem grab_linux_always_error :
    ∀ (callback : Event → Option Event) (blocking : Bool),
      grab callback blocking = Except.error GrabError.linuxNotSupported :=
  fun _ _ => rfl

/-- Modelled from the spec: `DisplayError` — the main-screen geometry query
failed (no display). -/
inductive DisplayError where
  | noDisplay
deriving DecidableEq, Repr

/-- Modelled from the spec: a platform display backend (the missing
`linux`/`macos`/`windows` modules' `display_size`): the main screen's
(width, height) in pixels as u64 values, or a `DisplayError`.  u64 values
are modelled as naturals below 2 ^ 64. -/
structure DisplayBackend where
  mainScreenSize : Except DisplayError (Nat × Nat)

/-- The crate's documented contract for a display backend: on success both
returned components are strictly positive u64 values (the crate docs assert
`w > 0` and `h > 0`). -/
def DisplayBackend.Wf (b : DisplayBackend) : Prop :=
  ∀ w h, b.mainScreenSize = Except.ok (w, h) →
    (0 < w ∧ w < 2 ^ 64) ∧ (0 < h ∧ h < 2 ^ 64)

/-- The façade `display_size` (src/src/lib.rs): delegates to the build's
platform backend and surfaces its result unchanged. -/
def display_size (b : DisplayBackend) : Except DisplayError (Nat × Nat) :=
  b.mainScreenSize

/-- A sample backend whose main screen is 1920 × 1080 pixels. -/
def sampleDisplayBackend : DisplayBackend :=
  { mainScreenSize := Except.ok (1920, 1080) }

/-- C10: the public façade exposes `display_size`, returning either a
`DisplayError` or the main screen's (width, height) in pixels as u64
values; for every backend honouring the crate's documented contract, a
successful result has both components strictly positive. -/
theorem display_size_success_positive (b : DisplayBackend) (hwf : b.Wf)
    (w h : Nat) (hok : display_size b = Except.ok (w, h)) :
    0 < w ∧ 0 < h :=
  ⟨(hwf w h hok).1.1, (hwf w h hok).2.1⟩

/-- C10 witness: the sample 1920 × 1080 backend honours the contract and
the façade reports strictly positive dimensions for it. -/
theorem display_size_success_positive_witness :
    sampleDisplayBackend.Wf ∧ (0 < 1920 ∧ 0 < 1080) := by
  have hwf : sampleDisplayBackend.Wf := by
    intro w h heq
    rw [show sampleDisplayBackend.mainScreenSize
      = Except.ok (1920, 1080) from rfl] at heq
    injection heq with hpair
    injection hpair with hw hh
    subst hw; subst hh
    decide
  exact ⟨hwf,
    display_size_success_positive sampleDisplayBackend hwf 1920 1080 rfl⟩

end Rdev
